import Mathlib

/-!
Verification of the fraud-monitor repository's fraud scoring engine and
transaction-status update handler, as a shallow embedding in Lean 4.

The engine (`runFraudDetection` in `src/server/src/handlers/get_transactions.ts`)
is embedded as a pure function: the database query for recent transactions of
the user inside the time window is replaced by an explicit `recentTransactions`
argument, exactly the rows the query would return.  Monetary amounts are
rationals (the source stores 2-digit decimals and compares/halves them);
timestamps are integers (milliseconds since the epoch, as `Date.getTime()`).

The status-update handler (`updateTransactionStatus` in
`src/server/src/handlers/update_transaction_status.ts`) is embedded with the
database as an explicit list of stored rows.
-/

namespace FraudMonitor

/-- Transaction status enum from `src/server/src/db/schema.ts`:
`['pending', 'completed', 'failed', 'flagged']`. -/
inductive TransactionStatus where
  | pending
  | completed
  | failed
  | flagged
deriving DecidableEq, Repr

/-- `FraudDetectionConfig` from the schema: the three tunable thresholds. -/
structure FraudDetectionConfig where
  high_amount_threshold : ℚ
  frequency_threshold : ℕ
  time_window_minutes : ℕ
deriving DecidableEq, Repr

/-- The default configuration supplied as the default parameter of
`runFraudDetection` in `get_transactions.ts`. -/
def defaultConfig : FraudDetectionConfig :=
  { high_amount_threshold := 10000
    frequency_threshold := 5
    time_window_minutes := 1 }

/-- A historical transaction row as seen by the engine: only the `amount`
(`parseFloat(t.amount)`) and `timestamp` (`t.timestamp.getTime()`) fields are
read by `runFraudDetection`. -/
structure HistTransaction where
  amount : ℚ
  timestamp : ℤ
deriving DecidableEq, Repr

/-- `FraudDetectionResult` interface from `get_transactions.ts`. -/
structure FraudDetectionResult where
  is_suspicious : Bool
  fraud_reason : Option String
  risk_score : ℕ
deriving DecidableEq, Repr

/-- Reason string of check 1 (high amount) in `runFraudDetection`. -/
def highAmountReason (amount threshold : ℚ) : String :=
  "High transaction amount: $" ++ toString amount ++
    " exceeds threshold of $" ++ toString threshold

/-- Reason string of check 2 (frequency) in `runFraudDetection`. -/
def frequencyReason (total window threshold : ℕ) : String :=
  "High transaction frequency: " ++ toString total ++ " transactions in " ++
    toString window ++ " minute(s), threshold is " ++ toString threshold

/-- Reason string of check 3 (multiple large transactions). -/
def multiLargeReason (count : ℕ) (halfThreshold : ℚ) (window : ℕ) : String :=
  "Multiple large transactions detected: " ++ toString count ++
    " transactions over $" ++ toString halfThreshold ++ " in " ++
    toString window ++ " minute(s)"

/-- Reason string of check 4 (rapid succession). -/
def rapidReason : String :=
  "Rapid successive transactions detected within 30 seconds"

/-- The loop of check 4: walks the sorted timestamp list and reports whether
two adjacent entries differ by less than 30000 ms, with the source's
short-circuit structure. -/
def hasRapidPair : List ℤ → Bool
  | a :: b :: rest => if b - a < 30000 then true else hasRapidPair (b :: rest)
  | _ => false

/-- The historical timestamps mapped out and sorted ascending, as
`recentTransactions.map(t => t.timestamp.getTime()).sort((a, b) => a - b)`. -/
def sortedTimestamps (recentTransactions : List HistTransaction) : List ℤ :=
  (recentTransactions.map (fun t => t.timestamp)).mergeSort (fun a b => a ≤ b)

/-- The four sequential checks of `runFraudDetection`, accumulating the
uncapped risk score and the ordered reason list exactly as the source mutates
`riskScore` and `fraudReasons`. -/
def fraudChecks (amount : ℚ) (config : FraudDetectionConfig)
    (recentTransactions : List HistTransaction) : ℕ × List String :=
  let riskScore : ℕ := 0
  let fraudReasons : List String := []
  -- Check 1: High amount threshold
  let (riskScore, fraudReasons) :=
    if amount > config.high_amount_threshold then
      (riskScore + 50,
        fraudReasons ++ [highAmountReason amount config.high_amount_threshold])
    else (riskScore, fraudReasons)
  -- Check 2: Transaction frequency analysis (+1 for the current transaction)
  let totalTransactionCount := recentTransactions.length + 1
  let (riskScore, fraudReasons) :=
    if totalTransactionCount ≥ config.frequency_threshold then
      (riskScore + 35,
        fraudReasons ++ [frequencyReason totalTransactionCount
          config.time_window_minutes config.frequency_threshold])
    else (riskScore, fraudReasons)
  -- Check 3: Multiple large transactions in short time
  let largeTransactions := recentTransactions.filter
    (fun t => t.amount > config.high_amount_threshold / 2)
  let currentTransactionIsLarge := amount > config.high_amount_threshold / 2
  let totalLargeTransactions :=
    largeTransactions.length + (if currentTransactionIsLarge then 1 else 0)
  let (riskScore, fraudReasons) :=
    if totalLargeTransactions ≥ 2 then
      (riskScore + 50,
        fraudReasons ++ [multiLargeReason totalLargeTransactions
          (config.high_amount_threshold / 2) config.time_window_minutes])
    else (riskScore, fraudReasons)
  -- Check 4: Rapid successive transactions
  let (riskScore, fraudReasons) :=
    if recentTransactions.length ≥ 2 then
      if hasRapidPair (sortedTimestamps recentTransactions) then
        (riskScore + 20, fraudReasons ++ [rapidReason])
      else (riskScore, fraudReasons)
    else (riskScore, fraudReasons)
  (riskScore, fraudReasons)

/-- `runFraudDetection` from `get_transactions.ts`.  The database query is
replaced by the `recentTransactions` argument: the user's historical rows
inside the time window.  `userId` is kept for signature fidelity; in the
source it only parameterises that query. -/
def runFraudDetection (userId : String) (amount : ℚ)
    (config : FraudDetectionConfig)
    (recentTransactions : List HistTransaction) : FraudDetectionResult :=
  let (riskScore, fraudReasons) := fraudChecks amount config recentTransactions
  -- Cap risk score at 100
  let riskScore := min riskScore 100
  -- Determine if transaction is suspicious (threshold: 50)
  let isSuspicious : Bool := riskScore ≥ 50
  let fraudReason : Option String :=
    if fraudReasons.length > 0 then some (String.intercalate "; " fraudReasons)
    else none
  { is_suspicious := isSuspicious
    fraud_reason := fraudReason
    risk_score := riskScore }

/-! ### Spec-side rule descriptions

Per-rule contributions and reason lists, written after the spec's
independent-rule description (§4.1), to be compared with the sequential
`fraudChecks` translated from the source. -/

/-- Number of "large" transactions: historical rows whose amount strictly
exceeds half the high-amount threshold, plus 1 when the candidate's own amount
does. -/
def largeCount (amount : ℚ) (config : FraudDetectionConfig)
    (recentHistory : List HistTransaction) : ℕ :=
  (recentHistory.filter
      (fun t => t.amount > config.high_amount_threshold / 2)).length +
    (if amount > config.high_amount_threshold / 2 then 1 else 0)

/-- Some adjacent pair in the list differs by strictly less than 30 seconds
(30000 ms). -/
def adjacentRapid (l : List ℤ) : Prop :=
  ∃ i : ℕ, ∃ h : i + 1 < l.length,
    l.get ⟨i + 1, h⟩ - l.get ⟨i, by omega⟩ < 30000

/-- Rule 1's contribution: +50 when the amount strictly exceeds the
threshold. -/
def rule1Score (amount : ℚ) (config : FraudDetectionConfig) : ℕ :=
  if amount > config.high_amount_threshold then 50 else 0

/-- Rule 2's contribution: +35 when history size + 1 (the candidate) reaches
the frequency threshold. -/
def rule2Score (config : FraudDetectionConfig)
    (recentHistory : List HistTransaction) : ℕ :=
  if recentHistory.length + 1 ≥ config.frequency_threshold then 35 else 0

/-- Rule 3's contribution: +50 when the large count reaches 2. -/
def rule3Score (amount : ℚ) (config : FraudDetectionConfig)
    (recentHistory : List HistTransaction) : ℕ :=
  if largeCount amount config recentHistory ≥ 2 then 50 else 0

/-- Rule 4's contribution: +20 when there are at least two historical rows and
the check-4 loop finds a rapid adjacent pair of sorted timestamps. -/
def rule4Score (recentHistory : List HistTransaction) : ℕ :=
  if recentHistory.length ≥ 2 ∧
      hasRapidPair (sortedTimestamps recentHistory) = true then 20 else 0

/-- Rule 1's reason list: one string when it fires, none otherwise. -/
def rule1Reasons (amount : ℚ) (config : FraudDetectionConfig) : List String :=
  if amount > config.high_amount_threshold then
    [highAmountReason amount config.high_amount_threshold]
  else []

/-- Rule 2's reason list. -/
def rule2Reasons (config : FraudDetectionConfig)
    (recentHistory : List HistTransaction) : List String :=
  if recentHistory.length + 1 ≥ config.frequency_threshold then
    [frequencyReason (recentHistory.length + 1) config.time_window_minutes
      config.frequency_threshold]
  else []

/-- Rule 3's reason list. -/
def rule3Reasons (amount : ℚ) (config : FraudDetectionConfig)
    (recentHistory : List HistTransaction) : List String :=
  if largeCount amount config recentHistory ≥ 2 then
    [multiLargeReason (largeCount amount config recentHistory)
      (config.high_amount_threshold / 2) config.time_window_minutes]
  else []

/-- Rule 4's reason list. -/
def rule4Reasons (recentHistory : List HistTransaction) : List String :=
  if recentHistory.length ≥ 2 ∧
      hasRapidPair (sortedTimestamps recentHistory) = true then
    [rapidReason]
  else []

/-! ### Transaction-status update handler -/

/-- A stored transaction row (`transactionsTable` in `src/server/src/db/schema.ts`),
with the columns `updateTransactionStatus` reads or writes. -/
structure StoredTransaction where
  id : ℕ
  transaction_id : String
  user_id : String
  amount : ℚ
  timestamp : ℤ
  status : TransactionStatus
  is_suspicious : Bool
  fraud_reason : Option String
deriving DecidableEq, Repr

/-- `UpdateTransactionStatusInput`: the outer `Option` distinguishes an absent
`fraud_reason` field (`none`, meaning "leave unchanged") from a provided one
(`some fr`, where `fr = none` is an explicit null that clears the column). -/
structure UpdateTransactionStatusInput where
  id : ℕ
  status : TransactionStatus
  fraud_reason : Option (Option String)
deriving DecidableEq, Repr

/-- The `set(updateValues)` of `updateTransactionStatus` applied to one row:
`status := input.status`, `is_suspicious := (input.status === 'flagged')`, and
`fraud_reason` only when the input provides it. -/
def applyStatusUpdate (input : UpdateTransactionStatusInput)
    (t : StoredTransaction) : StoredTransaction :=
  { t with
    status := input.status
    is_suspicious := decide (input.status = TransactionStatus.flagged)
    fraud_reason :=
      match input.fraud_reason with
      | none => t.fraud_reason
      | some fr => fr }

/-- `updateTransactionStatus` from
`src/server/src/handlers/update_transaction_status.ts`, with the database as
an explicit list of rows: every row matching `input.id` is updated, the
updated rows are returned (`returning()`), and an error is raised when no row
matched.  The returned pair is (database after the update, returned row). -/
def updateTransactionStatus (db : List StoredTransaction)
    (input : UpdateTransactionStatusInput) :
    Except String (List StoredTransaction × StoredTransaction) :=
  let newDb := db.map
    (fun t => if t.id = input.id then applyStatusUpdate input t else t)
  let result := newDb.filter (fun t => t.id = input.id)
  match result with
  | [] =>
      Except.error ("Transaction with id " ++ toString input.id ++ " not found")
  | r :: _ => Except.ok (newDb, r)

/-! ### Theorems -/

/-- The check-4 loop finds a pair iff some adjacent pair of the list differs
by strictly less than 30 seconds. -/
theorem hasRapidPair_iff (l : List ℤ) :
    hasRapidPair l = true ↔ adjacentRapid l := by
  induction l with
  | nil => simp [hasRapidPair, adjacentRapid]
  | cons a tl ih =>
    cases tl with
    | nil => simp [hasRapidPair, adjacentRapid]
    | cons b rest =>
      rw [hasRapidPair]
      constructor
      · intro hfire
        by_cases hab : b - a < 30000
        · exact ⟨0, by simp, by simpa using hab⟩
        · rw [if_neg hab] at hfire
          obtain ⟨i, hi, hlt⟩ := ih.mp hfire
          exact ⟨i + 1, by simpa using hi, by simpa using hlt⟩
      · rintro ⟨i, hi, hlt⟩
        by_cases hab : b - a < 30000
        · rw [if_pos hab]
        · rw [if_neg hab]
          cases i with
          | zero => simp at hlt; omega
          | succ j =>
            exact ih.mpr ⟨j, by simpa using hi, by simpa using hlt⟩

/-- Decomposition of the sequential source checks into the four independent
rules of the spec: the uncapped score is the sum of the four contributions and
the reason list is the concatenation of the four reason lists, in
rule-evaluation order. -/
theorem fraudChecks_eq (amount : ℚ) (config : FraudDetectionConfig)
    (recentHistory : List HistTransaction) :
    fraudChecks amount config recentHistory =
      (rule1Score amount config + rule2Score config recentHistory +
        rule3Score amount config recentHistory + rule4Score recentHistory,
       rule1Reasons amount config ++ rule2Reasons config recentHistory ++
        rule3Reasons amount config recentHistory ++
        rule4Reasons recentHistory) := by
  unfold fraudChecks rule1Score rule2Score rule3Score rule4Score
    rule1Reasons rule2Reasons rule3Reasons rule4Reasons largeCount
  by_cases h1 : amount > config.high_amount_threshold <;>
    by_cases h2 : recentHistory.length + 1 ≥ config.frequency_threshold <;>
    by_cases h3 : (recentHistory.filter
        (fun t => t.amount > config.high_amount_threshold / 2)).length +
        (if amount > config.high_amount_threshold / 2 then 1 else 0) ≥ 2 <;>
    by_cases h4a : recentHistory.length ≥ 2 <;>
    by_cases h4b : hasRapidPair (sortedTimestamps recentHistory) = true <;>
    simp [h1, h2, h3, h4a, h4b]

/-- C1: for every input, `runFraudDetection` returns a risk score equal to the
sum of the triggered rules' contributions (+50 amount, +35 frequency, +50
multi-large, +20 rapid succession) capped at 100 via `min`, the score is at
most 100 (it is a natural number, hence also at least 0), and the verdict is
suspicious if and only if the score is at least 50. -/
theorem C1_risk_score_invariants (userId : String) (amount : ℚ)
    (config : FraudDetectionConfig) (recentHistory : List HistTransaction) :
    (runFraudDetection userId amount config recentHistory).risk_score =
      min (rule1Score amount config + rule2Score config recentHistory +
        rule3Score amount config recentHistory + rule4Score recentHistory)
        100 ∧
    (runFraudDetection userId amount config recentHistory).risk_score ≤ 100 ∧
    ((runFraudDetection userId amount config recentHistory).is_suspicious =
        true ↔
      (runFraudDetection userId amount config recentHistory).risk_score ≥
        50) := by
  refine ⟨?_, ?_, ?_⟩
  · simp [runFraudDetection, fraudChecks_eq]
  · simp only [runFraudDetection, fraudChecks_eq]
    exact Nat.min_le_right _ _
  · simp [runFraudDetection, fraudChecks_eq, ge_iff_le]

/-- C2 counterexample: with the valid configuration
(threshold 10000, frequency 1, window 1), a positive amount of 5 that does not
trigger the high-amount rule, and an empty history, the risk score is 35 (the
frequency rule fires on the candidate alone), not 0. -/
theorem C2_counterexample :
    (0:ℚ) < 5 ∧ (0:ℚ) < 10000 ∧ 0 < 1 ∧
    ¬ ((5:ℚ) >
      (FraudDetectionConfig.mk 10000 1 1).high_amount_threshold) ∧
    (runFraudDetection "u" 5 (FraudDetectionConfig.mk 10000 1 1)
      []).risk_score ≠ 0 := by
  refine ⟨by norm_num, by norm_num, by norm_num, by norm_num, ?_⟩
  norm_num [runFraudDetection, fraudChecks]

/-- C2 amended: for every positive amount and every configuration whose fields
are all positive and whose frequency threshold is at least 2, scoring with an
empty history yields risk score 0 unless the high-amount rule
(amount strictly above the threshold) fires. -/
theorem C2_empty_history_amended (userId : String) (amount : ℚ)
    (config : FraudDetectionConfig)
    (hamt : 0 < amount) (hthr : 0 < config.high_amount_threshold)
    (hfreq : 2 ≤ config.frequency_threshold)
    (hwin : 0 < config.time_window_minutes)
    (hnofire : ¬ (amount > config.high_amount_threshold)) :
    (runFraudDetection userId amount config []).risk_score = 0 := by
  have h1 : rule1Score amount config = 0 := by
    simp [rule1Score, hnofire]
  have h2 : rule2Score config [] = 0 := by
    simp only [rule2Score, List.length_nil]
    rw [if_neg]
    omega
  have h3 : rule3Score amount config [] = 0 := by
    simp only [rule3Score, largeCount, List.filter_nil, List.length_nil]
    rw [if_neg]
    split <;> omega
  have h4 : rule4Score [] = 0 := by
    simp [rule4Score]
  simp [runFraudDetection, fraudChecks_eq, h1, h2, h3, h4]

/-- C2 witness: the amended statement's hypotheses hold at amount 5 with the
default configuration, and there the empty-history score is 0. -/
theorem C2_empty_history_amended_witness :
    ((0:ℚ) < 5 ∧ 0 < defaultConfig.high_amount_threshold ∧
      2 ≤ defaultConfig.frequency_threshold ∧
      0 < defaultConfig.time_window_minutes ∧
      ¬ ((5:ℚ) > defaultConfig.high_amount_threshold)) ∧
    (runFraudDetection "u" 5 defaultConfig []).risk_score = 0 :=
  ⟨⟨by decide, by decide, by decide, by decide, by decide⟩,
    C2_empty_history_amended "u" 5 defaultConfig (by decide) (by decide)
      (by decide) (by decide) (by decide)⟩

/-- C3: the high-amount rule fires, contributing exactly +50 and its reason
string, if and only if the amount strictly exceeds the threshold; and scoring
an amount exactly equal to the default threshold with empty history and the
default configuration yields risk score 0 and a non-suspicious verdict. -/
theorem C3_high_amount_strict_boundary :
    (∀ (amount : ℚ) (config : FraudDetectionConfig)
        (recentHistory : List HistTransaction),
      fraudChecks amount config recentHistory =
        ((if amount > config.high_amount_threshold then 50 else 0) +
          rule2Score config recentHistory +
          rule3Score amount config recentHistory + rule4Score recentHistory,
         (if amount > config.high_amount_threshold then
            [highAmountReason amount config.high_amount_threshold]
          else []) ++
          rule2Reasons config recentHistory ++
          rule3Reasons amount config recentHistory ++
          rule4Reasons recentHistory)) ∧
    (runFraudDetection "u" 10000 defaultConfig []).risk_score = 0 ∧
    (runFraudDetection "u" 10000 defaultConfig []).is_suspicious = false := by
  refine ⟨fun amount config recentHistory => fraudChecks_eq .., ?_, ?_⟩ <;>
    norm_num [runFraudDetection, fraudChecks, defaultConfig]

/-- A sample history: four transactions of amount 100, 10 seconds apart. -/
def sampleHistory : List HistTransaction :=
  [⟨100, 0⟩, ⟨100, 10000⟩, ⟨100, 20000⟩, ⟨100, 30000⟩]

/-- C4: for every history of size n and positive frequency threshold, the
high-frequency rule contributes exactly +35 and its reason string if and only
if n + 1 reaches the threshold, the +1 counting the candidate transaction
itself. -/
theorem C4_frequency_rule (userId : String) (amount : ℚ)
    (config : FraudDetectionConfig) (recentHistory : List HistTransaction)
    (hfreq : 0 < config.frequency_threshold) :
    fraudChecks amount config recentHistory =
      (rule1Score amount config +
        (if recentHistory.length + 1 ≥ config.frequency_threshold then 35
         else 0) +
        rule3Score amount config recentHistory + rule4Score recentHistory,
       rule1Reasons amount config ++
        (if recentHistory.length + 1 ≥ config.frequency_threshold then
          [frequencyReason (recentHistory.length + 1)
            config.time_window_minutes config.frequency_threshold]
         else []) ++
        rule3Reasons amount config recentHistory ++
        rule4Reasons recentHistory) :=
  fraudChecks_eq amount config recentHistory

/-- C4 witness: the default configuration has a positive frequency threshold,
and on a four-element history the frequency rule fires with +35. -/
theorem C4_frequency_rule_witness :
    0 < defaultConfig.frequency_threshold ∧
    fraudChecks 1 defaultConfig sampleHistory =
      (rule1Score 1 defaultConfig +
        (if sampleHistory.length + 1 ≥ defaultConfig.frequency_threshold
         then 35 else 0) +
        rule3Score 1 defaultConfig sampleHistory +
        rule4Score sampleHistory,
       rule1Reasons 1 defaultConfig ++
        (if sampleHistory.length + 1 ≥ defaultConfig.frequency_threshold then
          [frequencyReason (sampleHistory.length + 1)
            defaultConfig.time_window_minutes
            defaultConfig.frequency_threshold]
         else []) ++
        rule3Reasons 1 defaultConfig sampleHistory ++
        rule4Reasons sampleHistory) :=
  ⟨by decide,
    C4_frequency_rule "u" 1 defaultConfig sampleHistory (by decide)⟩

/-- C5: the multiple-large-transactions rule contributes exactly +50 and its
reason string if and only if the number of historical rows with amount
strictly above half the high-amount threshold, plus 1 when the candidate's own
amount is strictly above half the threshold, is at least 2. -/
theorem C5_multi_large_rule (amount : ℚ) (config : FraudDetectionConfig)
    (recentHistory : List HistTransaction) :
    largeCount amount config recentHistory =
      (recentHistory.filter
          (fun t => t.amount > config.high_amount_threshold / 2)).length +
        (if amount > config.high_amount_threshold / 2 then 1 else 0) ∧
    fraudChecks amount config recentHistory =
      (rule1Score amount config + rule2Score config recentHistory +
        (if largeCount amount config recentHistory ≥ 2 then 50 else 0) +
        rule4Score recentHistory,
       rule1Reasons amount config ++ rule2Reasons config recentHistory ++
        (if largeCount amount config recentHistory ≥ 2 then
          [multiLargeReason (largeCount amount config recentHistory)
            (config.high_amount_threshold / 2) config.time_window_minutes]
         else []) ++
        rule4Reasons recentHistory) :=
  ⟨rfl, fraudChecks_eq amount config recentHistory⟩

/-- C6: the rapid-succession rule is gated on the history having at least two
entries and contributes exactly +20 and its reason string if and only if some
adjacent pair of the ascending-sorted historical timestamps differs by
strictly less than 30 seconds; the candidate's own timestamp plays no part
(`sortedTimestamps` reads only the history). -/
theorem C6_rapid_succession_rule (amount : ℚ) (config : FraudDetectionConfig)
    (recentHistory : List HistTransaction) :
    ((recentHistory.length ≥ 2 ∧
        hasRapidPair (sortedTimestamps recentHistory) = true) ↔
      (recentHistory.length ≥ 2 ∧
        adjacentRapid (sortedTimestamps recentHistory))) ∧
    fraudChecks amount config recentHistory =
      (rule1Score amount config + rule2Score config recentHistory +
        rule3Score amount config recentHistory +
        (if recentHistory.length ≥ 2 ∧
            hasRapidPair (sortedTimestamps recentHistory) = true then 20
         else 0),
       rule1Reasons amount config ++ rule2Reasons config recentHistory ++
        rule3Reasons amount config recentHistory ++
        (if recentHistory.length ≥ 2 ∧
            hasRapidPair (sortedTimestamps recentHistory) = true then
          [rapidReason]
         else [])) :=
  ⟨and_congr_right fun _ => hasRapidPair_iff _,
    fraudChecks_eq amount config recentHistory⟩

/-- C7: the reason list carries exactly one string per triggered rule in
rule-evaluation order (amount, frequency, multi-large, rapid succession); it
is empty if and only if the risk score is 0; and the returned `fraud_reason`
is the reason list joined with "; ", or `none` when the list is empty. -/
theorem C7_reasons_structure (userId : String) (amount : ℚ)
    (config : FraudDetectionConfig) (recentHistory : List HistTransaction) :
    (fraudChecks amount config recentHistory).2 =
      rule1Reasons amount config ++ rule2Reasons config recentHistory ++
        rule3Reasons amount config recentHistory ++
        rule4Reasons recentHistory ∧
    ((fraudChecks amount config recentHistory).2 = [] ↔
      (runFraudDetection userId amount config recentHistory).risk_score =
        0) ∧
    (runFraudDetection userId amount config recentHistory).fraud_reason =
      (if (fraudChecks amount config recentHistory).2 = [] then none
       else some (String.intercalate "; "
         (fraudChecks amount config recentHistory).2)) := by
  by_cases h1 : amount > config.high_amount_threshold <;>
    by_cases h2 : recentHistory.length + 1 ≥ config.frequency_threshold <;>
    by_cases h3 : largeCount amount config recentHistory ≥ 2 <;>
    by_cases h4 : recentHistory.length ≥ 2 ∧
      hasRapidPair (sortedTimestamps recentHistory) = true <;>
    simp [runFraudDetection, fraudChecks_eq, rule1Score, rule2Score,
      rule3Score, rule4Score, rule1Reasons, rule2Reasons, rule3Reasons,
      rule4Reasons, h1, h2, h3, h4]

/-- C8: the scoring engine is deterministic: two calls with identical user,
amount, configuration and recent-history window produce identical verdicts.
(In this embedding the engine is a pure function over immutable values, so it
also cannot mutate its inputs.) -/
theorem C8_deterministic (ua ub : String) (aa ab : ℚ)
    (ca cb : FraudDetectionConfig) (ha hb : List HistTransaction)
    (hu : ua = ub) (hA : aa = ab) (hc : ca = cb) (hh : ha = hb) :
    runFraudDetection ua aa ca ha = runFraudDetection ub ab cb hb := by
  subst hu hA hc hh
  rfl

/-- C8 witness: two identical calls at a concrete input agree. -/
theorem C8_deterministic_witness :
    ("u" : String) = "u" ∧ (5 : ℚ) = 5 ∧ defaultConfig = defaultConfig ∧
    ([] : List HistTransaction) = [] ∧
    runFraudDetection "u" 5 defaultConfig [] =
      runFraudDetection "u" 5 defaultConfig [] :=
  ⟨rfl, rfl, rfl, rfl,
    C8_deterministic "u" "u" 5 5 defaultConfig defaultConfig [] [] rfl rfl
      rfl rfl⟩

/-- Any row of the updated table that matches the input id carries
`is_suspicious = (input.status = flagged)`. -/
theorem updatedRow_suspicious (input : UpdateTransactionStatusInput)
    (db : List StoredTransaction) (t : StoredTransaction)
    (hmem : t ∈ db.map
      (fun t => if t.id = input.id then applyStatusUpdate input t else t))
    (hid : t.id = input.id) :
    t.is_suspicious = decide (input.status = TransactionStatus.flagged) := by
  obtain ⟨t0, _, heq⟩ := List.mem_map.mp hmem
  by_cases h : t0.id = input.id
  · rw [if_pos h] at heq
    rw [← heq]
    rfl
  · rw [if_neg h] at heq
    rw [← heq] at hid
    exact absurd hid h

/-- A successful `updateTransactionStatus` returns the table with every
matching row updated, and a returned row that is a matching row of that
table. -/
theorem updateTransactionStatus_ok (db : List StoredTransaction)
    (input : UpdateTransactionStatusInput)
    (newDb : List StoredTransaction) (ret : StoredTransaction)
    (hok : updateTransactionStatus db input = Except.ok (newDb, ret)) :
    newDb = db.map
      (fun t => if t.id = input.id then applyStatusUpdate input t else t) ∧
    ret ∈ newDb ∧ ret.id = input.id := by
  simp only [updateTransactionStatus] at hok
  split at hok
  · exact absurd hok (by simp)
  · rename_i r rest heq
    rw [Except.ok.injEq, Prod.mk.injEq] at hok
    obtain ⟨h1, h2⟩ := hok
    subst h1 h2
    have hrmem : r ∈ (db.map
        (fun t => if t.id = input.id then applyStatusUpdate input t
          else t)).filter (fun t => t.id = input.id) := by
      rw [heq]
      exact List.mem_cons_self r rest
    refine ⟨rfl, List.mem_of_mem_filter hrmem, ?_⟩
    simpa using List.of_mem_filter hrmem

/-- C9: a successful status update to 'flagged' forces the stored
`is_suspicious` field of the returned row, and of every matching row of the
table, to true — regardless of the verdict previously stored. -/
theorem C9_flagged_forces_suspicious (db : List StoredTransaction)
    (input : UpdateTransactionStatusInput)
    (newDb : List StoredTransaction) (ret : StoredTransaction)
    (hflag : input.status = TransactionStatus.flagged)
    (hok : updateTransactionStatus db input = Except.ok (newDb, ret)) :
    ret.is_suspicious = true ∧
    ∀ t ∈ newDb, t.id = input.id → t.is_suspicious = true := by
  obtain ⟨hdb, hret, hretid⟩ :=
    updateTransactionStatus_ok db input newDb ret hok
  subst hdb
  constructor
  · rw [updatedRow_suspicious input db ret hret hretid, hflag]
    simp
  · intro t ht hid
    rw [updatedRow_suspicious input db t ht hid, hflag]
    simp

/-- C10: after any successful status update, the stored `is_suspicious` field
of the returned row, and of every matching row of the table, equals
(status = 'flagged'); in particular any status other than 'flagged' resets it
to false, overwriting a previously recorded true. -/
theorem C10_nonflagged_clears_suspicious (db : List StoredTransaction)
    (input : UpdateTransactionStatusInput)
    (newDb : List StoredTransaction) (ret : StoredTransaction)
    (hok : updateTransactionStatus db input = Except.ok (newDb, ret)) :
    ret.is_suspicious = decide (input.status = TransactionStatus.flagged) ∧
    (input.status ≠ TransactionStatus.flagged →
      ret.is_suspicious = false) ∧
    ∀ t ∈ newDb, t.id = input.id →
      t.is_suspicious = decide (input.status = TransactionStatus.flagged) := by
  obtain ⟨hdb, hret, hretid⟩ :=
    updateTransactionStatus_ok db input newDb ret hok
  subst hdb
  refine ⟨updatedRow_suspicious input db ret hret hretid, fun hne => ?_,
    fun t ht hid => updatedRow_suspicious input db t ht hid⟩
  rw [updatedRow_suspicious input db ret hret hretid]
  simp [hne]

/-- The flagging input used in the C9 witness. -/
def flagInput : UpdateTransactionStatusInput :=
  ⟨1, TransactionStatus.flagged, none⟩

/-- A stored row the engine left unflagged. -/
def rowUnflagged : StoredTransaction :=
  ⟨1, "test-txn-001", "user123", 100, 0, TransactionStatus.pending, false,
    none⟩

/-- The completing input used in the C10 witness. -/
def completeInput : UpdateTransactionStatusInput :=
  ⟨1, TransactionStatus.completed, none⟩

/-- A stored row the engine had flagged as suspicious. -/
def rowFlagged : StoredTransaction :=
  ⟨1, "test-txn-002", "user123", 15000, 0, TransactionStatus.flagged, true,
    some "High transaction amount"⟩

/-- C9 witness: updating a concrete unflagged row to 'flagged' succeeds and
yields `is_suspicious = true`. -/
theorem C9_flagged_forces_suspicious_witness :
    flagInput.status = TransactionStatus.flagged ∧
    (applyStatusUpdate flagInput rowUnflagged).is_suspicious = true ∧
    ∀ t ∈ [applyStatusUpdate flagInput rowUnflagged], t.id = flagInput.id →
      t.is_suspicious = true :=
  ⟨rfl,
    (C9_flagged_forces_suspicious [rowUnflagged] flagInput
      [applyStatusUpdate flagInput rowUnflagged]
      (applyStatusUpdate flagInput rowUnflagged) rfl rfl).1,
    (C9_flagged_forces_suspicious [rowUnflagged] flagInput
      [applyStatusUpdate flagInput rowUnflagged]
      (applyStatusUpdate flagInput rowUnflagged) rfl rfl).2⟩

/-- C10 witness: updating a concrete engine-flagged row to 'completed'
succeeds and resets `is_suspicious` to false. -/
theorem C10_nonflagged_clears_suspicious_witness :
    (applyStatusUpdate completeInput rowFlagged).is_suspicious =
      decide (completeInput.status = TransactionStatus.flagged) ∧
    (completeInput.status ≠ TransactionStatus.flagged →
      (applyStatusUpdate completeInput rowFlagged).is_suspicious = false) ∧
    ∀ t ∈ [applyStatusUpdate completeInput rowFlagged],
      t.id = completeInput.id →
      t.is_suspicious =
        decide (completeInput.status = TransactionStatus.flagged) :=
  C10_nonflagged_clears_suspicious [rowFlagged] completeInput
    [applyStatusUpdate completeInput rowFlagged]
    (applyStatusUpdate completeInput rowFlagged) rfl

end FraudMonitor
